import Mathlib

/-!
Shallow embedding of the `jiangtdi/agent` repository: the conversational
QA pipeline of `qa_chain.py` (class `ZhipuQAChain`), the session
configuration handling of `app.py`, and the document-loading stage of
`create_db.py`.  Each definition is translated directly from the named
source lines; theorems about the frozen claims follow the definitions.
-/

/-- One conversation turn `(question, answer)`, the element type of
`ZhipuQAChain.chat_history` (`qa_chain.py` lines 30 and 122). -/
abbrev Turn := String × String

/-- One LangChain-style message `(role, text)`, as produced by the
history-formatting loop of `stream_answer` (`qa_chain.py` lines 105-108). -/
abbrev HMsg := String × String

/-- Errors of the spec's taxonomy (spec section 7).  The source functions
modelled here raise none of them; the type makes "an error propagates"
statable so that claims about error behaviour can be settled. -/
inductive PipelineError
  | inputError (msg : String)
  | providerError (msg : String)
deriving DecidableEq

/-- Python `not question.strip()` (`qa_chain.py` line 101): true exactly
when the string is empty or consists only of whitespace characters. -/
def isBlank (s : String) : Bool := s.data.all Char.isWhitespace

/-- Python list slicing `l[i:]` for an arbitrary integer start index:
a negative index counts from the end, clamped at 0; a nonnegative index
past the end yields the empty list.  This is the semantics of
`self.chat_history[-max_length:]` (`qa_chain.py` line 132). -/
def pySliceFrom {α : Type} (l : List α) (i : ℤ) : List α :=
  if i < 0 then l.drop (max ((l.length : ℤ) + i) 0).toNat
  else l.drop i.toNat

/-- `ZhipuQAChain.truncate_history` (`qa_chain.py` lines 129-133):

    if len(self.chat_history) > max_length:
        self.chat_history = self.chat_history[-max_length:]
    return self.chat_history

The body performs no input validation and contains no `raise`; Python
integer comparison and list slicing succeed for every integer bound, so
every call returns normally.  The `Except` result type records this
explicitly (the error channel exists but is never used), so that claims
about rejection of invalid bounds can be stated and settled. -/
def truncate_history (chat_history : List Turn) (max_length : ℤ) :
    Except PipelineError (List Turn) :=
  if (chat_history.length : ℤ) > max_length then
    Except.ok (pySliceFrom chat_history (-max_length))
  else
    Except.ok chat_history

/-- C2: for every history `H` and bound `N ≥ 1`, `truncate_history N`
returns normally with the length-`min(len H, N)` suffix of `H` — the `N`
most recent turns in their original order — and is a no-op when
`len H ≤ N`. -/
theorem truncate_history_keeps_most_recent (h : List Turn) (N : ℤ)
    (hN : 1 ≤ N) :
    truncate_history h N = Except.ok (h.drop (h.length - N.toNat)) ∧
    (h.drop (h.length - N.toNat)).length = min h.length N.toNat ∧
    h.drop (h.length - N.toNat) <:+ h ∧
    ((h.length : ℤ) ≤ N → truncate_history h N = Except.ok h) := by
  refine ⟨?_, ?_, List.drop_suffix _ _, ?_⟩
  · unfold truncate_history pySliceFrom
    by_cases hlen : (h.length : ℤ) > N
    · rw [if_pos hlen, if_pos (by omega : -N < 0)]
      have : (max ((h.length : ℤ) + -N) 0).toNat = h.length - N.toNat := by
        omega
      rw [this]
    · rw [if_neg hlen]
      have : h.length - N.toNat = 0 := by omega
      rw [this, List.drop_zero]
  · rw [List.length_drop]
    omega
  · intro hle
    unfold truncate_history
    rw [if_neg (by omega)]

/-- Witness for C2 at a concrete input: a three-turn history truncated to
bound 2 keeps exactly the last two turns. -/
theorem truncate_history_keeps_most_recent_witness :
    truncate_history [("q1", "a1"), ("q2", "a2"), ("q3", "a3")] 2
      = Except.ok [("q2", "a2"), ("q3", "a3")] := by
  have h := truncate_history_keeps_most_recent
    [("q1", "a1"), ("q2", "a2"), ("q3", "a3")] 2 (by norm_num)
  exact h.1

/-- Counterexample for C3: calling `truncate_history` with bound `0` on a
one-turn history returns normally (`Except.ok`, the history unchanged) —
the call silently succeeds instead of being rejected with an input
error. -/
theorem truncate_history_zero_bound_silently_succeeds :
    truncate_history [("q", "a")] 0 = Except.ok [("q", "a")] := rfl

/-- C3 (amended): `truncate_history` performs no validation of the bound:
a bound of `0` silently succeeds as a no-op, and a negative bound `-k`
(`k ≥ 1`) silently succeeds and removes the first `k` turns (Python slice
`h[k:]`); no input error is raised in either case. -/
theorem truncate_history_accepts_nonpositive_bound :
    (∀ h : List Turn, truncate_history h 0 = Except.ok h) ∧
    (∀ (h : List Turn) (k : ℤ), 1 ≤ k →
      truncate_history h (-k) = Except.ok (h.drop k.toNat)) := by
  constructor
  · intro h
    unfold truncate_history pySliceFrom
    by_cases hlen : (h.length : ℤ) > 0
    · rw [if_pos hlen]
      norm_num
    · rw [if_neg hlen]
  · intro h k hk
    unfold truncate_history pySliceFrom
    rw [if_pos (by omega), neg_neg, if_neg (by omega)]

/-- Witness for C3 (amended) at concrete inputs: bound 0 leaves a
one-turn history unchanged, and bound -2 on a three-turn history drops
the first two turns. -/
theorem truncate_history_accepts_nonpositive_bound_witness :
    truncate_history [("q", "a")] 0 = Except.ok [("q", "a")] ∧
    truncate_history [("q1", "a1"), ("q2", "a2"), ("q3", "a3")] (-2)
      = Except.ok [("q3", "a3")] :=
  ⟨truncate_history_accepts_nonpositive_bound.1 [("q", "a")],
   truncate_history_accepts_nonpositive_bound.2
     [("q1", "a1"), ("q2", "a2"), ("q3", "a3")] 2 (by norm_num)⟩

/-- A retrieved document, as used by `combine_docs` (`qa_chain.py`
lines 85-86): only its `page_content` is read. -/
structure Document where
  page_content : String
deriving DecidableEq

/-- One chunk of the dict-valued stream produced by
`self.chain.stream(...)` (`qa_chain.py` line 110): the composed chain
`RunnablePassthrough().assign(context=...).assign(answer=...)` yields
dictionary chunks; `stream_answer` reads only the `"answer"` key
(line 117), so each key is modelled as an optional field and a missing
key as `none`. -/
structure StreamChunk where
  input : Option String := none
  chat_history : Option (List HMsg) := none
  context : Option (List Document) := none
  answer : Option String := none
deriving DecidableEq

/-- Observable events of one `stream_answer` generator run: fragments
yielded to the caller (line 119), the history append (line 122), and the
external calls issued by the composed chain (lines 63-97). -/
inductive QAEvent
  | yieldFrag (s : String)
  | appendTurn (t : Turn)
  | callCondense (input : String) (chat_history : List HMsg)
  | callRetrieve (query : String)
  | callGenerate (context : String) (chat_history : List HMsg) (input : String)
deriving DecidableEq

/-- The fragments `stream_answer` extracts from the chain's chunk stream:
exactly the values of chunks carrying an `"answer"` key, in stream order
(`qa_chain.py` lines 116-119). -/
def answerFrags (resp : List StreamChunk) : List String :=
  resp.filterMap (fun c => c.answer)

/-- The event trace of the `stream_answer` generator body (`qa_chain.py`
lines 99-122), given the chunk stream `resp` produced by
`self.chain.stream`.  A blank question hits the early `return`
(lines 101-102) and the trace is empty.  Otherwise the body yields each
`"answer"` fragment in order and, after the loop — hence after the final
yield — appends `(question, full_answer)` to the history, where
`full_answer` is the concatenation of the yielded fragments (lines
115-122).  A consumer that cancels or fails before exhaustion observes
only a proper prefix of this trace, so the trailing append never runs
for it — exactly Python's generator semantics, where line 122 is
reachable only by resuming past the last yield. -/
def stream_answer_body (question : String) (resp : List StreamChunk) :
    List QAEvent :=
  if isBlank question then []
  else
    (answerFrags resp).map QAEvent.yieldFrag
      ++ [QAEvent.appendTurn (question, String.join (answerFrags resp))]

/-- The history that results from observing a (possibly partial) event
trace: each `appendTurn` event appends one turn, in order; other events
leave the history untouched. -/
def consumeHistory (hist : List Turn) (events : List QAEvent) : List Turn :=
  events.foldl
    (fun h e =>
      match e with
      | QAEvent.appendTurn t => h ++ [t]
      | _ => h)
    hist

/-- The fragments yielded in an event trace, in order. -/
def yieldsOf (events : List QAEvent) : List String :=
  events.filterMap
    (fun e =>
      match e with
      | QAEvent.yieldFrag s => some s
      | _ => none)

theorem consumeHistory_append (hist : List Turn) (a b : List QAEvent) :
    consumeHistory hist (a ++ b) = consumeHistory (consumeHistory hist a) b := by
  unfold consumeHistory
  rw [List.foldl_append]

theorem consumeHistory_yieldFrags (hist : List Turn) (l : List String) :
    consumeHistory hist (l.map QAEvent.yieldFrag) = hist := by
  induction l generalizing hist with
  | nil => rfl
  | cons s ss ih => exact ih hist

theorem yieldsOf_yieldFrags (l : List String) :
    yieldsOf (l.map QAEvent.yieldFrag) = l := by
  induction l with
  | nil => rfl
  | cons s ss ih => exact congrArg (List.cons s) ih

/-- Counterexample for C1: at the whitespace-only question `""` with
empty history, fully consuming the stream returned by `stream_answer`
appends nothing — the history stays `[]` rather than gaining the one
turn `("", "")` (raw question, concatenation of the zero yielded
fragments) that the claim predicts for consumption to exhaustion. -/
theorem blank_question_full_drain_appends_nothing :
    stream_answer_body "" [{ answer := some "X" }] = [] ∧
    consumeHistory [] (stream_answer_body "" [{ answer := some "X" }]) ≠
      [("", "")] := by
  constructor
  · rfl
  · decide

/-- C1 (amended): for every question that is not empty or
whitespace-only, every history and every chunk stream: consuming any
proper prefix of the answer stream (cancellation or an error before
exhaustion) leaves the history unmodified; consuming it to exhaustion
appends exactly one turn `(original raw question, concatenation of all
yielded fragments in order)`, and that append is the trace's final
event, strictly after the last yielded fragment. -/
theorem stream_answer_appends_only_after_full_drain (q : String)
    (hist : List Turn) (resp : List StreamChunk)
    (hq : isBlank q = false) :
    (∀ k, k < (stream_answer_body q resp).length →
      consumeHistory hist ((stream_answer_body q resp).take k) = hist) ∧
    consumeHistory hist (stream_answer_body q resp)
      = hist ++ [(q, String.join (answerFrags resp))] ∧
    (stream_answer_body q resp).getLast?
      = some (QAEvent.appendTurn (q, String.join (answerFrags resp))) ∧
    yieldsOf (stream_answer_body q resp) = answerFrags resp := by
  have hbody : stream_answer_body q resp
      = (answerFrags resp).map QAEvent.yieldFrag
        ++ [QAEvent.appendTurn (q, String.join (answerFrags resp))] := by
    unfold stream_answer_body
    rw [hq]
    rfl
  refine ⟨?_, ?_, ?_, ?_⟩
  · intro k hk
    rw [hbody] at hk ⊢
    rw [List.length_append, List.length_map] at hk
    rw [List.take_append_of_le_length (by simpa using Nat.lt_succ_iff.mp hk),
      ← List.map_take]
    exact consumeHistory_yieldFrags hist _
  · rw [hbody, consumeHistory_append, consumeHistory_yieldFrags]
    rfl
  · rw [hbody]
    exact List.getLast?_concat _
  · rw [hbody]
    unfold yieldsOf
    rw [List.filterMap_append]
    have h1 := yieldsOf_yieldFrags (answerFrags resp)
    unfold yieldsOf at h1
    rw [h1]
    simp

/-- Witness for C1 (amended) at a concrete input: question `"hi"`, empty
history, a stream of two answer chunks.  Cancelling after the first
fragment leaves the history empty; full consumption records exactly
`("hi", "AB")`. -/
theorem stream_answer_appends_only_after_full_drain_witness :
    consumeHistory []
        ((stream_answer_body "hi"
          [{ answer := some "A" }, { answer := some "B" }]).take 1) = [] ∧
    consumeHistory []
        (stream_answer_body "hi"
          [{ answer := some "A" }, { answer := some "B" }])
      = [("hi", "AB")] := by
  have h := stream_answer_appends_only_after_full_drain "hi" []
    [{ answer := some "A" }, { answer := some "B" }] (by decide)
  refine ⟨h.1 1 (by decide), ?_⟩
  have h2 := h.2.1
  simpa using h2

theorem stream_answer_body_nonblank (q : String) (resp : List StreamChunk)
    (hq : isBlank q = false) :
    stream_answer_body q resp
      = (answerFrags resp).map QAEvent.yieldFrag
        ++ [QAEvent.appendTurn (q, String.join (answerFrags resp))] := by
  unfold stream_answer_body
  rw [hq]
  rfl

/-- C10: for a non-blank question, only chunks carrying an `"answer"` key
contribute to the yielded output and to the recorded answer; in
particular, when the chunk stream completes normally with no
answer-carrying chunk at all, `stream_answer` still appends one turn
whose answer component is the empty string. -/
theorem zero_answer_chunks_still_append_empty_turn (q : String)
    (hist : List Turn) (resp : List StreamChunk)
    (hq : isBlank q = false) :
    yieldsOf (stream_answer_body q resp) = answerFrags resp ∧
    ((∀ c ∈ resp, c.answer = none) →
      stream_answer_body q resp = [QAEvent.appendTurn (q, "")] ∧
      consumeHistory hist (stream_answer_body q resp) = hist ++ [(q, "")]) := by
  have hbody := stream_answer_body_nonblank q resp hq
  constructor
  · rw [hbody]
    unfold yieldsOf
    rw [List.filterMap_append]
    have h1 := yieldsOf_yieldFrags (answerFrags resp)
    unfold yieldsOf at h1
    rw [h1]
    simp
  · intro hnone
    have hfr : answerFrags resp = [] := List.filterMap_eq_nil_iff.mpr hnone
    rw [hbody, hfr]
    exact ⟨rfl, rfl⟩

/-- Witness for C10 at a concrete input: a stream of two chunks (one
carrying only `input`, one carrying only `context`, neither an answer)
leads to a single recorded turn `("hi", "")`. -/
theorem zero_answer_chunks_still_append_empty_turn_witness :
    stream_answer_body "hi" [{ input := some "hi" }, { context := some [] }]
      = [QAEvent.appendTurn ("hi", "")] ∧
    consumeHistory [("p", "r")]
        (stream_answer_body "hi" [{ input := some "hi" }, { context := some [] }])
      = [("p", "r"), ("hi", "")] := by
  have h := (zero_answer_chunks_still_append_empty_turn "hi" [("p", "r")]
    [{ input := some "hi" }, { context := some [] }] (by decide)).2 (by decide)
  exact ⟨h.1, h.2⟩

/-- The external collaborators of the chain, as called by the runnables
composed in `_build_chain` (`qa_chain.py` lines 42-97): the LLM applied
to the condensation prompt (line 66), the vector-store retriever
(lines 58-61), and the LLM applied to the answer prompt in streaming
mode (lines 88-93).  Each is an opaque function of exactly the data the
corresponding prompt or call receives. -/
structure Provider where
  condense : List HMsg → String → String
  retrieve : String → List Document
  generate : String → List HMsg → String → List String

/-- `combine_docs` (`qa_chain.py` lines 85-86): joins the retrieved
documents' text with a blank-line separator. -/
def combine_docs (docs : List Document) : String :=
  String.intercalate "\n\n" (docs.map (fun d => d.page_content))

/-- The `retrieve_docs` branch (`qa_chain.py` lines 63-67):

    RunnableBranch(
        (lambda x: not x.get("chat_history", False),
         (lambda x: x["input"]) | retriever),
        condense_question_prompt | llm | StrOutputParser() | retriever)

`stream_answer` always supplies the `chat_history` key as a list, and an
empty Python list is falsy, so the branch condition holds exactly when
the formatted history is empty: then the raw `input` goes straight to
the retriever with no LLM call; otherwise one condensation LLM call
produces the query handed to the retriever.  Returns the retrieved
documents together with the calls issued, in order. -/
def retrieve_docs (p : Provider) (input : String) (chat_history : List HMsg) :
    List Document × List QAEvent :=
  if chat_history.isEmpty then
    (p.retrieve input, [QAEvent.callRetrieve input])
  else
    let q := p.condense chat_history input
    (p.retrieve q,
     [QAEvent.callCondense input chat_history, QAEvent.callRetrieve q])

/-- The composed chain of `_build_chain` (`qa_chain.py` lines 88-97)
under `.stream`: `RunnablePassthrough().assign(context=retrieve_docs)
.assign(answer=qa_chain)` first resolves the context (issuing the
retrieval branch's calls), then streams the answer LLM call.  The chunk
stream carries the passed-through `input` and `chat_history` keys and the
`context` key, followed by one `answer` chunk per generated fragment;
the returned event list records the provider calls in issue order. -/
def chain_stream (p : Provider) (input : String) (chat_history : List HMsg) :
    List StreamChunk × List QAEvent :=
  let r := retrieve_docs p input chat_history
  let context := combine_docs r.1
  let frags := p.generate context chat_history input
  ({ input := some input } :: { chat_history := some chat_history } ::
      { context := some r.1 } :: frags.map (fun f => { answer := some f }),
   r.2 ++ [QAEvent.callGenerate context chat_history input])

/-- The history-formatting loop of `stream_answer` (`qa_chain.py` lines
105-108): each stored turn `(human, ai)` becomes the two messages
`("human", human)` and `("ai", ai)`, in order. -/
def formatted_history (chat_history : List Turn) : List HMsg :=
  chat_history.flatMap (fun t => [("human", t.1), ("ai", t.2)])

/-- `ZhipuQAChain.stream_answer` (`qa_chain.py` lines 99-122) as a full
event trace: a blank question returns immediately with an empty trace;
otherwise the chain is streamed on `{"input": question, "chat_history":
formatted_history}`, the provider calls are issued in order, each
answer fragment is yielded, and the turn is appended after the final
yield (see `stream_answer_body`). -/
def stream_answer (p : Provider) (question : String)
    (chat_history : List Turn) : List QAEvent :=
  if isBlank question then []
  else
    let cs := chain_stream p question (formatted_history chat_history)
    cs.2 ++ stream_answer_body question cs.1

/-- The condensation calls in a trace: the `input` handed to the
condensation prompt, in call order. -/
def condenseCalls (events : List QAEvent) : List String :=
  events.filterMap
    (fun e =>
      match e with
      | QAEvent.callCondense input _ => some input
      | _ => none)

/-- The retrieval queries in a trace, in call order. -/
def retrieveQueries (events : List QAEvent) : List String :=
  events.filterMap
    (fun e =>
      match e with
      | QAEvent.callRetrieve q => some q
      | _ => none)

/-- The kind of an external call, forgetting its payload. -/
inductive CallKind
  | condense
  | retrieve
  | generate
deriving DecidableEq

/-- The kinds of the external calls in a trace, in call order. -/
def callKinds (events : List QAEvent) : List CallKind :=
  events.filterMap
    (fun e =>
      match e with
      | QAEvent.callCondense _ _ => some CallKind.condense
      | QAEvent.callRetrieve _ => some CallKind.retrieve
      | QAEvent.callGenerate _ _ _ => some CallKind.generate
      | _ => none)

/-- A concrete provider used to instantiate witnesses. -/
def stubProvider : Provider :=
  { condense := fun _ input => input,
    retrieve := fun _ => [],
    generate := fun _ _ _ => ["stub answer"] }

theorem condenseCalls_append (a b : List QAEvent) :
    condenseCalls (a ++ b) = condenseCalls a ++ condenseCalls b := by
  unfold condenseCalls
  rw [List.filterMap_append]

theorem retrieveQueries_append (a b : List QAEvent) :
    retrieveQueries (a ++ b) = retrieveQueries a ++ retrieveQueries b := by
  unfold retrieveQueries
  rw [List.filterMap_append]

theorem callKinds_append (a b : List QAEvent) :
    callKinds (a ++ b) = callKinds a ++ callKinds b := by
  unfold callKinds
  rw [List.filterMap_append]

theorem condenseCalls_yieldFrags (l : List String) :
    condenseCalls (l.map QAEvent.yieldFrag) = [] := by
  induction l with
  | nil => rfl
  | cons s ss ih => exact ih

theorem retrieveQueries_yieldFrags (l : List String) :
    retrieveQueries (l.map QAEvent.yieldFrag) = [] := by
  induction l with
  | nil => rfl
  | cons s ss ih => exact ih

theorem callKinds_yieldFrags (l : List String) :
    callKinds (l.map QAEvent.yieldFrag) = [] := by
  induction l with
  | nil => rfl
  | cons s ss ih => exact ih

theorem condenseCalls_stream_answer_body (q : String)
    (resp : List StreamChunk) : condenseCalls (stream_answer_body q resp) = [] := by
  unfold stream_answer_body
  by_cases hb : isBlank q
  · rw [if_pos hb]
    rfl
  · rw [if_neg hb, condenseCalls_append, condenseCalls_yieldFrags]
    rfl

theorem retrieveQueries_stream_answer_body (q : String)
    (resp : List StreamChunk) : retrieveQueries (stream_answer_body q resp) = [] := by
  unfold stream_answer_body
  by_cases hb : isBlank q
  · rw [if_pos hb]
    rfl
  · rw [if_neg hb, retrieveQueries_append, retrieveQueries_yieldFrags]
    rfl

theorem callKinds_stream_answer_body (q : String)
    (resp : List StreamChunk) : callKinds (stream_answer_body q resp) = [] := by
  unfold stream_answer_body
  by_cases hb : isBlank q
  · rw [if_pos hb]
    rfl
  · rw [if_neg hb, callKinds_append, callKinds_yieldFrags]
    rfl

theorem stream_answer_nonblank (p : Provider) (q : String) (hist : List Turn)
    (hq : isBlank q = false) :
    stream_answer p q hist
      = (chain_stream p q (formatted_history hist)).2
        ++ stream_answer_body q (chain_stream p q (formatted_history hist)).1 := by
  unfold stream_answer
  rw [if_neg (by simp [hq])]

theorem chain_stream_events_empty (p : Provider) (input : String)
    (fh : List HMsg) (hfh : fh.isEmpty = true) :
    (chain_stream p input fh).2
      = [QAEvent.callRetrieve input,
         QAEvent.callGenerate (combine_docs (p.retrieve input)) fh input] := by
  unfold chain_stream retrieve_docs
  rw [if_pos hfh]
  rfl

theorem chain_stream_events_nonempty (p : Provider) (input : String)
    (fh : List HMsg) (hfh : fh.isEmpty = false) :
    (chain_stream p input fh).2
      = [QAEvent.callCondense input fh,
         QAEvent.callRetrieve (p.condense fh input),
         QAEvent.callGenerate
           (combine_docs (p.retrieve (p.condense fh input))) fh input] := by
  unfold chain_stream retrieve_docs
  rw [if_neg (by simp [hfh])]
  rfl

/-- C4: for every non-blank question asked with an empty conversation
history, the chain issues zero condensation calls and the one query it
sends to retrieval is the raw question verbatim. -/
theorem empty_history_uses_raw_question_no_condense (p : Provider)
    (q : String) (hq : isBlank q = false) :
    condenseCalls (stream_answer p q []) = [] ∧
    retrieveQueries (stream_answer p q []) = [q] := by
  have h1 := stream_answer_nonblank p q [] hq
  have h2 := chain_stream_events_empty p q (formatted_history []) rfl
  rw [h1, condenseCalls_append, retrieveQueries_append, h2,
    condenseCalls_stream_answer_body, retrieveQueries_stream_answer_body]
  exact ⟨rfl, rfl⟩

/-- Witness for C4 at a concrete input: question `"hello"`, empty
history, a stub provider. -/
theorem empty_history_uses_raw_question_no_condense_witness :
    condenseCalls (stream_answer stubProvider "hello" []) = [] ∧
    retrieveQueries (stream_answer stubProvider "hello" []) = ["hello"] :=
  empty_history_uses_raw_question_no_condense stubProvider "hello" (by decide)

/-- C8: for every non-blank question asked with a non-empty conversation
history, the trace of external calls is exactly condensation, then
retrieval, then generation — in particular exactly one condensation call
and exactly one generation call, with the condensation strictly before
the generation. -/
theorem nonempty_history_one_condense_before_generate (p : Provider)
    (q : String) (hist : List Turn) (hq : isBlank q = false)
    (hh : hist ≠ []) :
    callKinds (stream_answer p q hist)
      = [CallKind.condense, CallKind.retrieve, CallKind.generate] ∧
    (callKinds (stream_answer p q hist)).count CallKind.condense = 1 ∧
    (callKinds (stream_answer p q hist)).count CallKind.generate = 1 := by
  obtain ⟨t, ts, rfl⟩ := List.exists_cons_of_ne_nil hh
  have h1 := stream_answer_nonblank p q (t :: ts) hq
  have h2 := chain_stream_events_nonempty p q (formatted_history (t :: ts)) rfl
  have hck : callKinds (stream_answer p q (t :: ts))
      = [CallKind.condense, CallKind.retrieve, CallKind.generate] := by
    rw [h1, callKinds_append, h2, callKinds_stream_answer_body]
    rfl
  exact ⟨hck, by rw [hck]; decide, by rw [hck]; decide⟩

/-- Witness for C8 at a concrete input: question `"next"`, a one-turn
history, a stub provider. -/
theorem nonempty_history_one_condense_before_generate_witness :
    callKinds (stream_answer stubProvider "next" [("q1", "a1")])
      = [CallKind.condense, CallKind.retrieve, CallKind.generate] ∧
    (callKinds (stream_answer stubProvider "next" [("q1", "a1")])).count
        CallKind.condense = 1 ∧
    (callKinds (stream_answer stubProvider "next" [("q1", "a1")])).count
        CallKind.generate = 1 :=
  nonempty_history_one_condense_before_generate stubProvider "next"
    [("q1", "a1")] (by decide) (by decide)

/-- C7: for every empty or whitespace-only question, `stream_answer` is a
no-op: the trace is empty, so no provider call is issued, no fragment is
yielded, and the history is left unchanged. -/
theorem blank_question_streams_nothing (p : Provider) (q : String)
    (hist : List Turn) (hq : isBlank q = true) :
    stream_answer p q hist = [] ∧
    callKinds (stream_answer p q hist) = [] ∧
    yieldsOf (stream_answer p q hist) = [] ∧
    consumeHistory hist (stream_answer p q hist) = hist := by
  have h : stream_answer p q hist = [] := by
    unfold stream_answer
    rw [if_pos hq]
  refine ⟨h, ?_, ?_, ?_⟩ <;> rw [h] <;> rfl

/-- Witness for C7 at a concrete input: the whitespace-only question
`"  "` with a one-turn history and a stub provider. -/
theorem blank_question_streams_nothing_witness :
    stream_answer stubProvider "  " [("a", "b")] = [] ∧
    callKinds (stream_answer stubProvider "  " [("a", "b")]) = [] ∧
    yieldsOf (stream_answer stubProvider "  " [("a", "b")]) = [] ∧
    consumeHistory [("a", "b")] (stream_answer stubProvider "  " [("a", "b")])
      = [("a", "b")] :=
  blank_question_streams_nothing stubProvider "  " [("a", "b")] (by decide)

/-- The outcome of running one `stream_answer` call to completion:
either normal completion with its event trace, or a propagated
exception.  The body of `stream_answer` (`qa_chain.py` lines 99-122)
contains no `raise`; in particular the empty-question branch (lines
101-102) is a plain `return` — in a Python generator, normal termination,
not an exception — executed before any provider code is reached.
Provider-raised exceptions could only occur past that branch and are
modelled at the consumption level as truncation of the event trace. -/
inductive StreamOutcome
  | completed (events : List QAEvent)
  | raised (err : PipelineError)
deriving DecidableEq

/-- The error carried by an outcome, if any. -/
def StreamOutcome.raisedError : StreamOutcome → Option PipelineError
  | StreamOutcome.completed _ => none
  | StreamOutcome.raised e => some e

/-- `stream_answer` as an outcome: every call of the source function
terminates normally with its event trace (no code path raises). -/
def stream_answer_outcome (p : Provider) (question : String)
    (chat_history : List Turn) : StreamOutcome :=
  StreamOutcome.completed (stream_answer p question chat_history)

/-- Counterexample for C6: calling `stream_answer` with the empty
question completes normally with an empty trace — no error of any kind
reaches the caller, so the call does not abort with a propagated
`InputError`; it silently does nothing. -/
theorem blank_question_outcome_is_completed :
    stream_answer_outcome stubProvider "" [] = StreamOutcome.completed [] ∧
    (stream_answer_outcome stubProvider "" []).raisedError = none :=
  ⟨rfl, rfl⟩

/-- C6 (amended): an empty or whitespace-only question causes
`stream_answer` to return immediately as a silent no-op: the call
completes normally with an empty trace — no fragments, no provider
calls, no history mutation — and no error is raised or propagated to the
caller. -/
theorem blank_question_completes_without_error (p : Provider) (q : String)
    (hist : List Turn) (hq : isBlank q = true) :
    stream_answer_outcome p q hist = StreamOutcome.completed [] ∧
    (stream_answer_outcome p q hist).raisedError = none := by
  have h : stream_answer p q hist = [] := by
    unfold stream_answer
    rw [if_pos hq]
  unfold stream_answer_outcome StreamOutcome.raisedError
  rw [h]
  exact ⟨rfl, rfl⟩

/-- Witness for C6 (amended) at a concrete input: the whitespace-only
question `" "` with a one-turn history and a stub provider. -/
theorem blank_question_completes_without_error_witness :
    stream_answer_outcome stubProvider " " [("a", "b")]
      = StreamOutcome.completed [] ∧
    (stream_answer_outcome stubProvider " " [("a", "b")]).raisedError
      = none :=
  blank_question_completes_without_error stubProvider " " [("a", "b")]
    (by decide)

/-- `ZhipuaiLLM(model_name=..., temperature=...)` (`qa_chain.py`
line 44): the LLM object holds the model name and temperature it was
constructed with; every generation through it uses that temperature. -/
structure ZhipuaiLLM where
  model_name : String
  temperature : ℚ
deriving DecidableEq

/-- `self.vectordb.as_retriever(search_type="similarity",
search_kwargs={'k': self.top_k})` (`qa_chain.py` lines 58-61): the
retriever holds the `k` it was constructed with; every retrieval through
it requests that many chunks. -/
structure Retriever where
  search_k : ℤ
deriving DecidableEq

/-- The chain object returned by `_build_chain` (`qa_chain.py` lines
42-97), reduced to the configuration it captures: the LLM built on
line 44 and the retriever built on lines 58-61.  These are fixed when
the chain object is created. -/
structure BuiltChain where
  llm : ZhipuaiLLM
  retriever : Retriever
deriving DecidableEq

/-- The `ZhipuQAChain` object: the mutable attributes set in `__init__`
(`qa_chain.py` lines 26-30) plus the chain built once on line 32. -/
structure ZhipuQAChain where
  model_name : String
  temperature : ℚ
  top_k : ℤ
  persist_directory : String
  chat_history : List Turn
  chain : BuiltChain
deriving DecidableEq

/-- `ZhipuQAChain._build_chain` (`qa_chain.py` lines 42-97), as the
configuration captured by the objects it constructs: the LLM gets the
current `model_name` and `temperature`, the retriever the current
`top_k`. -/
def _build_chain (model_name : String) (temperature : ℚ) (top_k : ℤ) :
    BuiltChain :=
  { llm := { model_name := model_name, temperature := temperature },
    retriever := { search_k := top_k } }

/-- `ZhipuQAChain.__init__` (`qa_chain.py` lines 19-32): stores the
configuration attributes and builds the chain exactly once, from the
attribute values at construction time. -/
def ZhipuQAChain.init (model_name : String) (temperature : ℚ) (top_k : ℤ)
    (persist_directory : String) (chat_history : List Turn) : ZhipuQAChain :=
  { model_name := model_name, temperature := temperature, top_k := top_k,
    persist_directory := persist_directory, chat_history := chat_history,
    chain := _build_chain model_name temperature top_k }

/-- The sidebar update `st.session_state.qa_chain.temperature =
temperature` (`app.py` line 43): a plain attribute assignment; nothing
else runs. -/
def ZhipuQAChain.setTemperature (c : ZhipuQAChain) (t : ℚ) : ZhipuQAChain :=
  { c with temperature := t }

/-- The sidebar update `st.session_state.qa_chain.top_k = top_k`
(`app.py` line 45): a plain attribute assignment; nothing else runs. -/
def ZhipuQAChain.setTopK (c : ZhipuQAChain) (k : ℤ) : ZhipuQAChain :=
  { c with top_k := k }

/-- The temperature a subsequent question is generated with: questions
run through `self.chain` (`qa_chain.py` line 110), whose LLM was built
on line 44 with the temperature captured at construction time. -/
def ZhipuQAChain.questionTemperature (c : ZhipuQAChain) : ℚ :=
  c.chain.llm.temperature

/-- The number of chunks a subsequent question retrieves: questions run
through `self.chain` (`qa_chain.py` line 110), whose retriever was built
on lines 58-61 with the `top_k` captured at construction time. -/
def ZhipuQAChain.questionTopK (c : ZhipuQAChain) : ℤ :=
  c.chain.retriever.search_k

/-- C5 evaluated at the failing input: construct the pipeline as
`app.py` line 11-15 does (temperature 0.7, top_k 4), then apply the
sidebar mutations to temperature 0.2 and top_k 7.  The attributes do
change, but a question asked afterwards still generates at temperature
0.7 and retrieves 4 chunks: `_build_chain` runs only in `__init__`
(`qa_chain.py` line 32), so the mutated attributes are never read by the
chain and the mutation has no effect on subsequent questions. -/
theorem config_mutation_not_seen_by_built_chain :
    (((ZhipuQAChain.init "glm-4-plus" (7/10) 4 "chroma2" []).setTemperature
        (1/5)).setTopK 7).temperature = 1/5 ∧
    (((ZhipuQAChain.init "glm-4-plus" (7/10) 4 "chroma2" []).setTemperature
        (1/5)).setTopK 7).top_k = 7 ∧
    (((ZhipuQAChain.init "glm-4-plus" (7/10) 4 "chroma2" []).setTemperature
        (1/5)).setTopK 7).questionTemperature = 7/10 ∧
    (((ZhipuQAChain.init "glm-4-plus" (7/10) 4 "chroma2" []).setTemperature
        (1/5)).setTopK 7).questionTopK = 4 :=
  ⟨rfl, rfl, rfl, rfl⟩

/-- The document types accepted by `load_documents` (`create_db.py`
line 67): `['pdf', 'md', 'txt', 'docx']`. -/
def supported_exts : List String := ["pdf", "md", "txt", "docx"]

/-- Python `file.split('.')[-1].lower()` (`create_db.py` line 66): the
substring after the last dot (the whole name when there is no dot),
lower-cased. -/
def file_ext (name : String) : String :=
  String.mk ((name.data.reverse.takeWhile (fun c => c ≠ '.')).reverse.map
    Char.toLower)

/-- A file under the knowledge-base directory, as seen by
`load_documents`: its name and what the corresponding loader's `load()`
call does — return documents, or raise (modelled as `Except.error`,
caught and logged by `create_db.py` lines 96-97). -/
structure SrcFile where
  name : String
  load : Except String (List Document)

/-- The documents one loader contributes: its result on success, nothing
when its `load()` raises (`create_db.py` lines 92-97: the exception is
caught, logged, and the loop continues). -/
def docsOf (f : SrcFile) : List Document :=
  match f.load with
  | Except.ok ds => ds
  | Except.error _ => []

/-- `load_documents` (`create_db.py` lines 60-99): first the walk keeps
exactly the files whose extension is in `supported_exts` (lines 64-68);
then each kept file's loader is run in a `try`/`except` that extends the
accumulated list on success and only logs on failure (lines 90-97). -/
def load_documents (files : List SrcFile) : List Document :=
  let file_paths := files.filter (fun f => supported_exts.contains (file_ext f.name))
  file_paths.foldl
    (fun docs f =>
      match f.load with
      | Except.ok ds => docs ++ ds
      | Except.error _ => docs)
    []

theorem load_documents_foldl (files : List SrcFile) (init : List Document) :
    files.foldl
        (fun docs f =>
          match f.load with
          | Except.ok ds => docs ++ ds
          | Except.error _ => docs)
        init
      = init ++ files.flatMap docsOf := by
  induction files generalizing init with
  | nil => simp
  | cons f fs ih =>
    rw [List.foldl_cons, List.flatMap_cons, ih]
    cases h : f.load with
    | ok ds => simp [docsOf, h]
    | error e => simp [docsOf, h]

theorem load_documents_eq (files : List SrcFile) :
    load_documents files
      = (files.filter (fun f => supported_exts.contains (file_ext f.name))).flatMap
          docsOf := by
  unfold load_documents
  rw [load_documents_foldl]
  rfl

/-- C9: during ingestion, a file whose `load()` raises contributes
nothing and does not abort the batch, and a file with an unsupported
extension is skipped; in both cases the result is exactly what loading
the remaining files yields. -/
theorem load_documents_skips_failures_and_unsupported
    (pre post : List SrcFile) (bad uns : SrcFile) (e : String)
    (hbadExt : supported_exts.contains (file_ext bad.name) = true)
    (hbadLoad : bad.load = Except.error e)
    (hunsExt : supported_exts.contains (file_ext uns.name) = false) :
    load_documents (pre ++ bad :: post) = load_documents (pre ++ post) ∧
    load_documents (pre ++ uns :: post) = load_documents (pre ++ post) := by
  have hdocs : docsOf bad = [] := by
    unfold docsOf
    rw [hbadLoad]
  have hbadMem : file_ext bad.name ∈ supported_exts := by
    simpa using hbadExt
  have hunsMem : file_ext uns.name ∉ supported_exts := by
    simpa using hunsExt
  constructor
  · rw [load_documents_eq, load_documents_eq]
    simp [List.filter_append, List.filter_cons, List.flatMap_append,
      List.flatMap_cons, hbadMem, hdocs]
  · rw [load_documents_eq, load_documents_eq]
    simp [List.filter_append, List.filter_cons, hunsMem]

/-- Witness for C9 at a concrete input: between two good files, a
Markdown file whose loader raises and an `.exe` file are both skipped:
all four batches load to the same two documents. -/
theorem load_documents_skips_failures_and_unsupported_witness :
    load_documents
        [⟨"a.pdf", Except.ok [⟨"A"⟩]⟩, ⟨"b.md", Except.error "boom"⟩,
         ⟨"d.txt", Except.ok [⟨"D"⟩]⟩]
      = load_documents [⟨"a.pdf", Except.ok [⟨"A"⟩]⟩, ⟨"d.txt", Except.ok [⟨"D"⟩]⟩] ∧
    load_documents
        [⟨"a.pdf", Except.ok [⟨"A"⟩]⟩, ⟨"c.exe", Except.ok [⟨"C"⟩]⟩,
         ⟨"d.txt", Except.ok [⟨"D"⟩]⟩]
      = load_documents [⟨"a.pdf", Except.ok [⟨"A"⟩]⟩, ⟨"d.txt", Except.ok [⟨"D"⟩]⟩] :=
  load_documents_skips_failures_and_unsupported
    [⟨"a.pdf", Except.ok [⟨"A"⟩]⟩] [⟨"d.txt", Except.ok [⟨"D"⟩]⟩]
    ⟨"b.md", Except.error "boom"⟩ ⟨"c.exe", Except.ok [⟨"C"⟩]⟩ "boom"
    (by decide) rfl (by decide)
